import Mathlib

/-!
Verification development for the merchant-analytics pipeline
(`data_processor.py`, `mbti_classifier.py`, `persona_generator.py`).

The Python code is shallowly embedded: pandas missing values (`NaN` /
`None`) are modelled by `Option`, floats by `ℚ`, and fallible Python
evaluation (exceptions) by `Except PyError`.  Rows of the profile
dataframe are modelled as total maps from column names to optional
values; the original dataframe always contains every column used below,
so `Series.get` defaults (which fire only for absent columns, not for
null values) never apply and the embedding reads the field directly.
-/

/-- Python exceptions that the embedded fragments can raise. -/
inductive PyError where
  | fileNotFoundError : String → PyError
  | typeError : String → PyError
  | valueError : String → PyError
  | keyError : String → PyError
  | indexError : String → PyError
  | exception : String → PyError
  deriving Repr, DecidableEq

/-- `a < c` on a possibly-NaN float: any comparison with NaN is `False`. -/
def pyLtB (v : Option ℚ) (c : ℚ) : Bool :=
  match v with
  | some x => decide (x < c)
  | none => false

/-- `a > c` on a possibly-NaN float: any comparison with NaN is `False`. -/
def pyGtB (v : Option ℚ) (c : ℚ) : Bool :=
  match v with
  | some x => decide (x > c)
  | none => false

/-- `a ≤ c` on a possibly-NaN float. -/
def pyLeB (v : Option ℚ) (c : ℚ) : Bool :=
  match v with
  | some x => decide (x ≤ c)
  | none => false

/-- `a > b` between two possibly-NaN floats (used by Python `max(..., key=...)`):
`False` whenever either side is NaN. -/
def nanGtB (a b : Option ℚ) : Bool :=
  match a, b with
  | some x, some y => decide (x > y)
  | _, _ => false

/-- Whether `pat` is a prefix of the character list. -/
def charsPrefix : List Char → List Char → Bool
  | [], _ => true
  | _ :: _, [] => false
  | p :: ps, c :: cs => p == c && charsPrefix ps cs

/-- Whether `pat` occurs contiguously in the character list. -/
def charsInfix (pat : List Char) : List Char → Bool
  | [] => pat.isEmpty
  | c :: cs => charsPrefix pat (c :: cs) || charsInfix pat cs

/-- Python `needle in haystack` on strings (substring test).  An empty
needle is always contained. -/
def strContains (s pat : String) : Bool :=
  pat.isEmpty || charsInfix pat.data s.data

/-- Left-to-right, non-overlapping replacement of `pat` by `rep`, with
fuel (one unit per consumed character suffices). -/
def charsReplaceAux (pat rep : List Char) : Nat → List Char → List Char
  | _, [] => []
  | 0, s => s
  | fuel + 1, c :: cs =>
    if charsPrefix pat (c :: cs) then
      rep ++ charsReplaceAux pat rep fuel (List.drop (pat.length - 1) cs)
    else c :: charsReplaceAux pat rep fuel cs

/-- Python `s.replace(pat, rep)` for a non-empty pattern (every pattern
replaced in this development is non-empty; Python treats an empty pattern
specially, which this model does not need). -/
def pyReplace (s pat rep : String) : String :=
  if pat.isEmpty then s
  else ⟨charsReplaceAux pat.data rep.data s.data.length s.data⟩

/-- The prefix of the character list before the first occurrence of `pat`
(the whole list when `pat` does not occur). -/
def charsTakeBefore (pat : List Char) : List Char → List Char
  | [] => []
  | c :: cs => if charsPrefix pat (c :: cs) then [] else c :: charsTakeBefore pat cs

/-- Python `s.split(pat)[0]` for a non-empty separator. -/
def pySplitHead (s pat : String) : String :=
  if pat.isEmpty then s else ⟨charsTakeBefore pat.data s.data⟩

/-- Python `needle in haystack` where the haystack may be `None`
(e.g. a quartile-bucket aggregate of an all-missing column):
`'x' in None` raises `TypeError`. -/
def pyInStr (needle : String) (hay : Option String) : Except PyError Bool :=
  match hay with
  | some s => .ok (strContains s needle)
  | none => .error (.typeError "argument of type \x27NoneType\x27 is not iterable")

/-- One row of the aggregated per-merchant profile dataframe
(`df_final` in `preprocess_data`): static descriptive columns,
numeric (mean-aggregated) columns and quartile-bucket (mode-aggregated)
columns, each addressed by column name.  `none` models a null cell. -/
structure ProfileRow where
  mct : String
  static : String → Option String
  numeric : String → Option ℚ
  quartile : String → Option String

/-- `STORE_TYPE_DEFINITIONS` from `mbti_classifier.py`. -/
def STORE_TYPE_DEFINITIONS : List (String × String) :=
  [("동네 사랑방", "안정적인 단골 고객층을 기반으로 꾸준히 운영되는 동네 터주대감"),
   ("오피스 핫플", "주변 직장인들의 점심/저녁을 책임지는, 피크 타임이 확실한 가게"),
   ("숨은 맛집", "우연히 들른 손님도 단골로 만드는, 맛과 매력으로 승부하는 가게"),
   ("배달의 고수", "홀보다는 배달/포장에 집중하여 높은 회전율과 효율성을 자랑하는 가게"),
   ("반짝 스타", "SNS나 미디어의 힘으로 급부상한, 신규 고객을 단골로 만드는 것이 과제인 가게"),
   ("성장 꿈나무", "이제 막 시작하여 가능성을 보여주는, 잠재력이 기대되는 신생 가게"),
   ("고독한 미식가", "소수의 매니아층을 확실하게 사로잡은, 객단가가 높은 전문점"),
   ("가격 파괴자", "뛰어난 가성비를 무기로 박리다매 전략을 통해 많은 고객을 유치하는 가게"),
   ("상권의 지배자", "맛, 위치, 고객 관리 모든 면에서 압도적인 성과를 보이는 동네 1등 가게"),
   ("위기의 소상공인", "전반적인 지표 개선이 시급한, 변화와 혁신이 필요한 가게")]

/-- Result dict of `classify_merchant_mbti`. -/
structure StoreType where
  name : String
  description : String
  deriving Repr, DecidableEq

/-- `max(cust_type_ratios, key=cust_type_ratios.get)` over the insertion-ordered
dict `{'거주': _, '직장': _, '유동': _}`: Python `max` keeps the current best
unless a later value compares strictly greater, and comparisons against NaN
are `False`, so a NaN never displaces the current best and never wins. -/
def mainCustType (rsd wp flp : Option ℚ) : String :=
  let best1 := ("거주", rsd)
  let best2 := if nanGtB wp best1.2 then ("직장", wp) else best1
  let best3 := if nanGtB flp best2.2 then ("유동", flp) else best2
  best3.1

/-- Rule 2 condition: `ry_rank > 80 and bzn_rank > 80 and ('90%초과' in
cust_count_rank or '75-90%' in cust_count_rank)`, with Python left-to-right
short-circuit (the substring tests are reached only when both rank tests
already passed, and may raise `TypeError` on a `None` bucket). -/
def mbtiRule2 (ry bzn : Option ℚ) (ccr : Option String) : Except PyError Bool :=
  if pyGtB ry 80 && pyGtB bzn 80 then do
    let b1 ← pyInStr "90%초과" ccr
    if b1 then pure true else pyInStr "75-90%" ccr
  else pure false

/-- Rule 5 condition: `'하위' in avg_spend_rank and '상위' in cust_count_rank`. -/
def mbtiRule5 (asr ccr : Option String) : Except PyError Bool := do
  let b1 ← pyInStr "하위" asr
  if b1 then pyInStr "상위" ccr else pure false

/-- Rule 6 condition: `'상위' in avg_spend_rank and '하위' in cust_count_rank`. -/
def mbtiRule6 (asr ccr : Option String) : Except PyError Bool := do
  let b1 ← pyInStr "상위" asr
  if b1 then pyInStr "하위" ccr else pure false

/-- `classify_merchant_mbti` from `mbti_classifier.py`, rule for rule.
The `merchant_row.get(col, default)` calls read columns that are always
present in a profile row, so the defaults never fire and the value may be
null; null numeric values make every threshold comparison `False`, while a
null bucket label makes a reached substring test raise `TypeError`. -/
def classify_merchant_mbti (row : ProfileRow) : Except PyError StoreType := do
  let ry_rank := row.numeric "M12_SME_RY_SAA_PCE_RT"
  let bzn_rank := row.numeric "M12_SME_BZN_SAA_PCE_RT"
  let repeat_rate := row.numeric "MCT_UE_CLN_REU_RAT"
  let new_rate := row.numeric "MCT_UE_CLN_NEW_RAT"
  let delivery_rate := row.numeric "DLV_SAA_RAT"
  let cust_count_rank := row.quartile "RC_M1_UE_CUS_CN"
  let avg_spend_rank := row.quartile "RC_M1_AV_NP_AT"
  let main_cust_type := mainCustType (row.numeric "RC_M1_SHC_RSD_UE_CLN_RAT")
      (row.numeric "RC_M1_SHC_WP_UE_CLN_RAT") (row.numeric "RC_M1_SHC_FLP_UE_CLN_RAT")
  let mk : String → Except PyError StoreType := fun n =>
    pure { name := n, description := ((STORE_TYPE_DEFINITIONS.lookup n).getD "") }
  if pyLtB ry_rank 30 && pyLtB bzn_rank 30 then
    mk "상권의 지배자"
  else do
    let b2 ← mbtiRule2 ry_rank bzn_rank cust_count_rank
    if b2 then mk "위기의 소상공인"
    else if pyGtB delivery_rate 50 then mk "배달의 고수"
    else if pyGtB new_rate 60 && pyLtB repeat_rate 30 then mk "반짝 스타"
    else do
      let b5 ← mbtiRule5 avg_spend_rank cust_count_rank
      if b5 then mk "가격 파괴자"
      else do
        let b6 ← mbtiRule6 avg_spend_rank cust_count_rank
        if b6 then mk "고독한 미식가"
        else if main_cust_type == "직장" && pyLtB ry_rank 50 then mk "오피스 핫플"
        else if main_cust_type == "거주" && pyGtB repeat_rate 50 then mk "동네 사랑방"
        else if main_cust_type == "유동" && pyGtB repeat_rate 40 && pyGtB bzn_rank 50 then
          mk "숨은 맛집"
        else if row.quartile "MCT_OPE_MS_CN" = some "75-90%"
             || row.quartile "MCT_OPE_MS_CN" = some "90%초과" then mk "성장 꿈나무"
        else mk "위기의 소상공인"

/-! ## Raw data and the `preprocess_data` aggregation (`data_processor.py`) -/

/-- Column-name constants from `data_processor.py`. -/
def STATIC_COLS : List String :=
  ["MCT_BSE_AR", "MCT_SIGUNGU_NM", "HPSN_MCT_ZCD_NM", "HPSN_MCT_BZN_CD_NM",
   "ARE_D", "MCT_ME_D"]

def QUARTILE_METRIC_COLS : List String :=
  ["MCT_OPE_MS_CN", "RC_M1_SAA", "RC_M1_TO_UE_CT",
   "RC_M1_UE_CUS_CN", "RC_M1_AV_NP_AT"]

def AGE_GENDER_COLS : List String :=
  ["M12_MAL_1020_RAT", "M12_MAL_30_RAT", "M12_MAL_40_RAT", "M12_MAL_50_RAT",
   "M12_MAL_60_RAT", "M12_FME_1020_RAT", "M12_FME_30_RAT", "M12_FME_40_RAT",
   "M12_FME_50_RAT", "M12_FME_60_RAT"]

def AGE_GENDER_NAMES : List (String × String) :=
  [("M12_MAL_1020_RAT", "남성 20대이하"), ("M12_MAL_30_RAT", "남성 30대"),
   ("M12_MAL_40_RAT", "남성 40대"), ("M12_MAL_50_RAT", "남성 50대"),
   ("M12_MAL_60_RAT", "남성 60대이상"), ("M12_FME_1020_RAT", "여성 20대이하"),
   ("M12_FME_30_RAT", "여성 30대"), ("M12_FME_40_RAT", "여성 40대"),
   ("M12_FME_50_RAT", "여성 50대"), ("M12_FME_60_RAT", "여성 60대이상")]

def CUST_TYPE_COLS : List String :=
  ["RC_M1_SHC_RSD_UE_CLN_RAT", "RC_M1_SHC_WP_UE_CLN_RAT", "RC_M1_SHC_FLP_UE_CLN_RAT"]

def CUST_TYPE_NAMES : List (String × String) :=
  [("RC_M1_SHC_RSD_UE_CLN_RAT", "거주 이용 고객"),
   ("RC_M1_SHC_WP_UE_CLN_RAT", "직장 이용 고객"),
   ("RC_M1_SHC_FLP_UE_CLN_RAT", "유동인구 이용 고객")]

def RETENTION_COLS : List String := ["MCT_UE_CLN_REU_RAT", "MCT_UE_CLN_NEW_RAT"]

def COMPETITION_COLS : List String := ["M12_SME_RY_SAA_PCE_RT", "M12_SME_BZN_SAA_PCE_RT"]

def MEAN_COLS_FOR_AGG : List String :=
  ["DLV_SAA_RAT", "M1_SME_RY_SAA_RAT", "M1_SME_RY_CNT_RAT",
   "M12_SME_RY_SAA_PCE_RT", "M12_SME_BZN_SAA_PCE_RT"]
  ++ AGE_GENDER_COLS ++ CUST_TYPE_COLS ++ RETENTION_COLS

def ALL_METRIC_COLS : List String := QUARTILE_METRIC_COLS ++ MEAN_COLS_FOR_AGG

/-- The suppressed-value sentinel `SV_VALUE = -999999.9`. -/
def SV_VALUE : ℚ := -999999.9

/-- One raw CSV row (per merchant, per month), after `read_csv` parsing and
the `pd.to_numeric(errors='coerce')` coercion of the mean-aggregated
columns: numeric cells hold `Option ℚ` (`none` = NaN, which is also what a
non-parseable cell coerces to), quartile-bucket and static cells hold
`Option String`. -/
structure RawRow where
  mct : String
  taYm : String
  static : String → Option String
  numeric : String → Option ℚ
  quartile : String → Option String

/-- One cell of `df.replace(SV_VALUE, np.nan)`: the sentinel becomes NaN. -/
def replaceSV (v : Option ℚ) : Option ℚ :=
  if v = some SV_VALUE then none else v

/-- `df.replace(SV_VALUE, np.nan)` on a whole row.  The sentinel is a float,
so only numeric cells can be equal to it; string-valued static/quartile
cells are unchanged. -/
def replaceSVRow (r : RawRow) : RawRow :=
  { r with numeric := fun c => replaceSV (r.numeric c) }

/-- The rows of one `groupby('ENCODED_MCT')` group, in original row order. -/
def rowsOf (rows : List RawRow) (m : String) : List RawRow :=
  rows.filter (fun r => r.mct = m)

/-- `Series.mean()` used by the groupby aggregation: NaNs are skipped; an
all-NaN series has mean NaN. -/
def seriesMean (vs : List (Option ℚ)) : Option ℚ :=
  let xs := vs.filterMap id
  if xs.isEmpty then none else some (xs.sum / (xs.length : ℚ))

/-- `GroupBy.first()` on one static column: first non-null value. -/
def aggFirst (rows : List RawRow) (m c : String) : Option String :=
  ((rowsOf rows m).filterMap (fun r => r.static c)).head?

/-- Keys of a Python `Counter`/dict in insertion order: first-occurrence
order of the underlying sequence, without duplicates. -/
def counterKeys : List String → List String
  | [] => []
  | x :: t => x :: (counterKeys t).filter (fun y => y ≠ x)

/-- `Counter(xs)` as an insertion-ordered association list of counts. -/
def counter (xs : List String) : List (String × Nat) :=
  (counterKeys xs).map (fun k => (k, xs.count k))

/-- `Counter.most_common(1)`'s head: the entry with the largest count;
`heapq.nlargest` is stable, so among equal counts the earliest entry of the
counter wins (a later entry replaces the current best only when strictly
larger). -/
def mostCommon1 : List (String × Nat) → Option (String × Nat)
  | [] => none
  | p :: t =>
    match mostCommon1 t with
    | none => some p
    | some q => if q.2 > p.2 then some q else some p

/-- `get_mode_or_first` from `data_processor.py`: drop the nulls, count with
`Counter`, return the most common value (or `None` for an all-null series). -/
def get_mode_or_first (vs : List (Option String)) : Option String :=
  let counts := counter (vs.filterMap id)
  if counts.isEmpty then none else (mostCommon1 counts).map (fun p => p.1)

/-- Mean aggregation of one numeric column for one merchant, as performed by
`preprocess_data` (sentinel replacement, then `groupby(...).mean()`). -/
def aggMean (rows : List RawRow) (m c : String) : Option ℚ :=
  seriesMean ((rowsOf (rows.map replaceSVRow) m).map (fun r => r.numeric c))

/-- Mode aggregation of one quartile-bucket column for one merchant, as
performed by `preprocess_data` (`groupby(...).agg(get_mode_or_first)`). -/
def aggMode (rows : List RawRow) (m c : String) : Option String :=
  get_mode_or_first ((rowsOf (rows.map replaceSVRow) m).map (fun r => r.quartile c))

/-- The merged profile row (`df_final`) of one merchant. -/
def buildProfile (rows : List RawRow) (m : String) : ProfileRow :=
  { mct := m
    static := fun c => aggFirst (rows.map replaceSVRow) m c
    numeric := fun c => aggMean rows m c
    quartile := fun c => aggMode rows m c }

/-- A raw dataframe: its column set and its rows. -/
structure RawDF where
  cols : List String
  rows : List RawRow

/-- The required-column check of `preprocess_data`. -/
def missingCols (df : RawDF) : List String :=
  (["ENCODED_MCT", "TA_YM"] ++ STATIC_COLS ++ ALL_METRIC_COLS).filter
    (fun c => c ∉ df.cols)

/-- `preprocess_data`: validate the schema, coerce and de-sentinel the
numeric columns, then aggregate per merchant (static → first, numeric →
mean, quartile → mode) and merge.  Group keys are modelled in
first-appearance order; the claims below do not depend on profile order. -/
def preprocess_data (df : RawDF) : Except PyError (List ProfileRow) :=
  if (missingCols df).isEmpty then
    .ok ((counterKeys (df.rows.map (fun r => r.mct))).map (buildProfile df.rows))
  else
    .error (.valueError
      ("❌ 데이터 파일에 다음 필수 컬럼이 누락되었습니다: " ++
        String.intercalate ", " (missingCols df)))

/-- The message text Python would interpolate for a wrapped exception. -/
def pyErrMsg : PyError → String
  | .fileNotFoundError s => s
  | .typeError s => s
  | .valueError s => s
  | .keyError s => s
  | .indexError s => s
  | .exception s => s

/-- What `pd.read_csv(path, encoding='cp949')` can encounter, abstracting
the filesystem: the file may be absent, its bytes may fail to decode as
cp949, or it parses into a dataframe. -/
inductive LoadInput where
  | absent : LoadInput
  | undecodable : LoadInput
  | decoded : RawDF → LoadInput

/-- `load_fixed_data` from `data_processor.py`.  On a cp949 decode failure
the handler executes `raise UnicodeDecodeError(f"...")`; constructing
`UnicodeDecodeError` with a single argument is itself a `TypeError`
("function takes exactly 5 arguments (1 given)") raised inside the
handler, and an exception raised inside an `except` block of a `try` is
not caught by that `try`'s later clauses, so that `TypeError` is what the
caller sees.  Any exception out of `preprocess_data` is wrapped by the
generic `except Exception` clause. -/
def load_fixed_data (path : String) (input : LoadInput) : Except PyError (List ProfileRow) :=
  match input with
  | .absent =>
    .error (.fileNotFoundError
      ("❌ 오류: 지정된 경로에 파일이 존재하지 않습니다. 경로를 확인하세요: `" ++ path ++ "`"))
  | .undecodable =>
    .error (.typeError "function takes exactly 5 arguments (1 given)")
  | .decoded df =>
    match preprocess_data df with
    | .ok profiles => .ok profiles
    | .error e =>
      .error (.exception
        ("❌ 파일을 로드하거나 전처리하는 중 오류가 발생했습니다. 에러: " ++ pyErrMsg e))

/-! ## `analyze_merchant` (`data_processor.py`) -/

/-- CPython's `f"{x:.1f}"`, on the exact rational carried by the embedding:
one digit after the point, rounding to the nearest tenth.  (CPython breaks
exact ties to even, but no value reaching a formatted diagnostic in the
claims below is an exact tie, and every claim compares texts built with
this same function on both sides.) -/
def fmt1 (q : ℚ) : String :=
  let s := if q < 0 then "-" else ""
  let n : ℕ := (round (|q| * 10)).toNat
  s ++ toString (n / 10) ++ "." ++ toString (n % 10)

/-- `merchant_row[cols].dropna()`: the (column, value) pairs of the
non-null cells, in column order. -/
def seriesDropna (row : ProfileRow) (cols : List String) : List (String × ℚ) :=
  cols.filterMap (fun c => (row.numeric c).map (fun v => (c, v)))

/-- `Series.idxmax()` paired with `Series.max()`: the first entry whose
value attains the maximum (a later entry replaces the current best only
when strictly larger), or `none` for an empty series. -/
def seriesIdxmax : List (String × ℚ) → Option (String × ℚ)
  | [] => none
  | p :: t =>
    match seriesIdxmax t with
    | none => some p
    | some q => if q.2 > p.2 then some q else some p

/-- Section A of `analyze_merchant`: the customer-concentration sentence.
With an all-null age/gender series the ratio falls back to `0.0` and the
bracket name to `'정보 없음'`, and the ordinary sentence is still built. -/
def custAnalysisText (row : ProfileRow) : String :=
  let ag := seriesDropna row AGE_GENDER_COLS
  let max_ag_ratio : ℚ := match seriesIdxmax ag with | some p => p.2 | none => 0
  let dominant_ag_name :=
    match seriesIdxmax ag with
    | some p => (AGE_GENDER_NAMES.lookup p.1).getD "정보 없음"
    | none => "정보 없음"
  let ct := seriesDropna row CUST_TYPE_COLS
  let primary_ct_name :=
    match seriesIdxmax ct with
    | some p => pyReplace ((CUST_TYPE_NAMES.lookup p.1).getD "정보 없음") " 이용 고객" ""
    | none => "정보 없음"
  "AI 분석 결과, 우리 가게는 **" ++ dominant_ag_name ++ " " ++ primary_ct_name ++
    "**가 전체 고객의 **" ++ fmt1 max_ag_ratio ++ "%**를 차지하여 고객층이 " ++
    (if max_ag_ratio ≥ 50 then "특정 그룹에 집중되어 있습니다"
     else "비교적 다양하게 분포되어 있습니다") ++ "."

/-- Low-retention sentence for `repeat_rate <= 30.0` with `new_rate > 50.0`. -/
def retentionLowHighNew (r n : ℚ) : String :=
  "신규 고객은 꾸준히 유입(" ++ fmt1 n ++ "%)되고 있으나, **재방문 고객 비중이 " ++
    fmt1 r ++ "%로 낮아** 한번 방문한 고객을 단골로 만드는 데 어려움을 겪고 있습니다."

/-- Low-retention sentence for `repeat_rate <= 30.0` with `new_rate <= 50.0`. -/
def retentionLowLowNew (r n : ℚ) : String :=
  "**재방문율이 " ++ fmt1 r ++ "%로 낮고**, 신규 고객 유입(" ++ fmt1 n ++
    "%)도 활발하지 않아 전반적인 고객 확보에 어려움이 있습니다."

/-- Good-retention sentence for `repeat_rate > 30.0`. -/
def retentionGoodText (r n : ℚ) : String :=
  "재방문 고객 비중이 " ++ fmt1 r ++
    "%로 **양호한 수준**이며, 고객 유지가 잘 이루어지고 있습니다. 신규 고객 비중은 " ++
    fmt1 n ++ "% 입니다."

/-- Fixed fallback of section B when either retention input is missing. -/
def retentionInsufficientText : String := "재방문율 및 신규 고객 비중 정보가 불충분합니다."

/-- Section B of `analyze_merchant`: the retention sentence. -/
def retentionAnalysisText (row : ProfileRow) : String :=
  match row.numeric "MCT_UE_CLN_REU_RAT", row.numeric "MCT_UE_CLN_NEW_RAT" with
  | some r, some n =>
    if r ≤ 30 then
      if n > 50 then retentionLowHighNew r n else retentionLowLowNew r n
    else retentionGoodText r n
  | _, _ => retentionInsufficientText

/-- Fixed fallback of section C when either rank input is missing. -/
def compInsufficientText : String := "경쟁 환경 순위 정보가 불충분합니다."

/-- `f"상위 {(100 - rank):.1f}%"`. -/
def posText (v : ℚ) : String := "상위 " ++ fmt1 (100 - v) ++ "%"

/-- Section C of `analyze_merchant`: the competitive-position sentence
(`rank_threshold = 70.0`). -/
def compAnalysisText (row : ProfileRow) : String :=
  match row.numeric "M12_SME_RY_SAA_PCE_RT", row.numeric "M12_SME_BZN_SAA_PCE_RT" with
  | some ry, some bzn =>
    let ryPos := posText ry
    let bznPos := posText bzn
    if ry < 30 && bzn < 30 then
      "**동일 업종(" ++ ryPos ++ ")과 상권(" ++ bznPos ++
        ")** 모두에서 최상위권의 압도적인 매출 경쟁력을 보이고 있습니다."
    else if ry < 30 && bzn ≥ 70 then
      "현재 **동일 업종 내에서는 " ++ ryPos ++
        " 수준의 준수한 매출**을 보이고 있으나, **가게가 위치한 상권 내에서는 하위권**(" ++
        bznPos ++ ")으로, 주변 다른 업종 가게들과의 경쟁에서 밀리고 있습니다."
    else if ry ≥ 70 && bzn ≥ 70 then
      "**동일 업종(" ++ ryPos ++ ")과 상권(" ++ bznPos ++
        ")** 모두에서 매출 순위가 하위권에 머물고 있어 경쟁력 확보가 시급합니다."
    else
      "동일 업종 내 매출 순위는 " ++ ryPos ++ ", 상권 내 매출 순위는 " ++ bznPos ++
        " 수준으로, 상세한 전략 검토가 필요합니다."
  | _, _ => compInsufficientText

/-- A Python value inside the analyzer's result dict. -/
inductive PyVal where
  | vStr : String → PyVal
  | vNum : Option ℚ → PyVal
  | vStrMap : List (String × Option String) → PyVal
  | vList : List String → PyVal
  | vPairs : List (String × String) → PyVal
  deriving Repr

/-- `analyze_merchant`: the returned dict, with exactly the keys the source
builds (three diagnostic texts, the static-field dict, the quartile-field
dict, and the two chart-helper entries). -/
def analyze_merchant (row : ProfileRow) : List (String × PyVal) :=
  [("cust_analysis_text", .vStr (custAnalysisText row)),
   ("retention_analysis_text", .vStr (retentionAnalysisText row)),
   ("comp_analysis_text", .vStr (compAnalysisText row)),
   ("static_info", .vStrMap (STATIC_COLS.map (fun c => (c, row.static c)))),
   ("metric_info", .vStrMap (QUARTILE_METRIC_COLS.map (fun c => (c, row.quartile c)))),
   ("age_gender_cols", .vList AGE_GENDER_COLS),
   ("age_gender_names", .vPairs AGE_GENDER_NAMES)]

/-! ## `create_persona` (`persona_generator.py`) -/

def FEMALE_NAMES : List String := ["김지아", "박서연", "이하윤", "최지우", "정민서"]

def MALE_NAMES : List String := ["박도윤", "이시우", "김주원", "정은우", "최지호"]

/-- One entry of `PERSONA_TEMPLATES`. -/
structure PersonaTemplate where
  roles : List String
  goals : List String
  pain_points : List String
  channels : List String
  deriving Repr

def tmplOffice2030 : PersonaTemplate :=
  { roles := ["주니어 마케터", "신입 개발자", "스타트업 직원"]
    goals := ["점심시간에 밖에서 먹으며 잠시 스트레스를 풀고 싶어요.",
              "빠르고 가성비 좋은 점심 메뉴를 동료들과 찾고 있어요."]
    pain_points := ["매일 탕/찌개가 지겨워요.",
                    "점심값이 너무 부담돼요.",
                    "웨이팅이 긴 곳은 절대 갈 수 없어요."]
    channels := ["네이버 지도 (가격순)", "직장인 익명 커뮤니티 (맛집)", "인스타그램"] }

def tmplOffice4050 : PersonaTemplate :=
  { roles := ["부장/이사급 관리자", "전문직 (변호사, 회계사)", "영업직"]
    goals := ["중요한 미팅이나 손님 접대를 위한 품격 있는 장소를 원해요.",
              "퇴근 후 깔끔한 분위기에서 격식 없이 술 한 잔 할 곳이 필요해요."]
    pain_points := ["시끄럽거나 캐주얼한 분위기는 불편해요.",
                    "주차 공간이 확보되지 않은 곳은 방문하기 어려워요.",
                    "대충 만든 듯한 점심 메뉴는 돈이 아까워요."]
    channels := ["지인 추천", "네이버 예약", "블루리본/미슐랭 가이드"] }

def tmplFamily : PersonaTemplate :=
  { roles := ["육아맘", "주부", "프리랜서"]
    goals := ["아이들과 함께 편안하게 식사할 수 있는 공간을 찾고 있어요.",
              "외식으로 집밥 같은 건강하고 맛있는 한 끼를 해결하고 싶어요."]
    pain_points := ["아이 메뉴가 없으면 난감해요.",
                    "다른 테이블에 피해를 줄까 봐 조용하지 않은 곳은 꺼려져요.",
                    "주말 저녁은 예약하지 않으면 앉을 곳이 없어요."]
    channels := ["지역 맘카페", "당근마켓 (동네생활)", "배달 앱 (포장 주문)"] }

def tmplSolo : PersonaTemplate :=
  { roles := ["대학생", "싱글 직장인", "자취생"]
    goals := ["집 근처에서 혼자 부담 없이 간단하게 끼니를 때우고 싶어요.",
              "주말에 소소하게 힐링할 수 있는 \x27나만의 아지트\x27 같은 공간을 찾아요."]
    pain_points := ["혼자 방문하기 어색한 분위기의 식당이 너무 많아요.",
                    "양이 너무 많아서 남기게 될까 봐 걱정돼요.",
                    "배달비가 비싸서 포장/방문을 이용하고 싶어요."]
    channels := ["네이버 지도 (내 주변)", "인스타그램 (혼밥 해시태그)", "유튜브 (자취 VLOG)"] }

def tmplTour : PersonaTemplate :=
  { roles := ["여행객", "타지 방문객", "데이트 커플"]
    goals := ["이 지역에서 꼭 먹어야 하는 \x27시그니처\x27 메뉴를 맛보고 싶어요.",
              "사진 찍기 좋은 예쁜 장소에서 경험을 공유하고 싶어요."]
    pain_points := ["정보가 너무 많아서 맛집을 고르기 어려워요.",
                    "유명한 곳은 대기가 너무 길어 시간을 낭비해요.",
                    "SNS 후기만 믿고 갔다가 실망한 경험이 많아요."]
    channels := ["인스타그램 (지역명 해시태그)", "블로그 (최신 후기)", "망고플레이트/다이닝코드"] }

def tmplTransit : PersonaTemplate :=
  { roles := ["출퇴근 환승객", "약속 전 시간 때우는 사람", "급한 일정의 비즈니스맨"]
    goals := ["약속 장소로 이동하기 전에 빠르고 간단하게 식사를 해결하고 싶어요.",
              "대기 없이 바로 이용 가능한 카페나 식당이 필요해요."]
    pain_points := ["역 근처는 너무 붐비고 정신이 없어요.",
                    "커피 한 잔만 시키기 눈치 보이는 곳은 싫어요.",
                    "화장실이 깨끗하지 않은 곳은 불편해요."]
    channels := ["네이버 지도 (현재 위치, 빠른 검색)", "카카오맵", "대중교통 커뮤니티"] }

/-- `PERSONA_TEMPLATES`, keyed exactly as in the source. -/
def PERSONA_TEMPLATES : List (String × PersonaTemplate) :=
  [("직장인_2030_가성비", tmplOffice2030),
   ("직장인_4050_프리미엄", tmplOffice4050),
   ("거주자_가족_패밀리", tmplFamily),
   ("거주자_1인가구_혼밥족", tmplSolo),
   ("유동인구_관광_탐색형", tmplTour),
   ("유동인구_대중교통_환승객", tmplTransit)]

/-- The extra pain point appended by the retention check. -/
def extraPainPoint : String :=
  "마음에 드는 가게를 찾으면 정착하고 싶지만, 아직 단골이 될 만큼 만족스러운 곳을 발견하지 못했어요."

/-- The ambient `random` draws of one `create_persona` call, made explicit:
each `Nat` selects an index (reduced modulo the list length), and a
`random.sample(l, 2)` draw is a first index into `l` plus a second index
into `l` with the first pick removed — so the two picks are always
distinct positions of `l`. -/
structure RandChoices where
  nameIdx : Nat
  roleIdx : Nat
  painIdx1 : Nat
  painIdx2 : Nat
  goalIdx1 : Nat
  goalIdx2 : Nat

/-- `random.choice`. -/
def pyChoice (l : List String) (i : Nat) : Except PyError String :=
  match l with
  | [] => .error (.indexError "Cannot choose from an empty sequence")
  | x :: t => .ok ((x :: t).getD (i % (x :: t).length) x)

/-- `random.sample(l, 2)`: two draws without replacement. -/
def pySample2 (l : List String) (i j : Nat) : Except PyError (List String) :=
  if l.length < 2 then
    .error (.valueError "Sample larger than population or is negative")
  else
    let a := i % l.length
    let rest := l.eraseIdx a
    .ok [l.getD a "", rest.getD (j % rest.length) ""]

/-- The generated persona dict. -/
structure Persona where
  name : String
  description : String
  goals : List String
  pain_points : List String
  channels : List String
  deriving Repr

/-- `d[k]` on the analysis-summary dict. -/
def dictGet (d : List (String × PyVal)) (k : String) : Except PyError PyVal :=
  match d.lookup k with
  | some v => .ok v
  | none => .error (.keyError k)

/-- `d.get(k, default)` on the analysis-summary dict. -/
def dictGetD (d : List (String × PyVal)) (k : String) (dflt : PyVal) : PyVal :=
  (d.lookup k).getD dflt

/-- A Python string operation (`in`, `.replace`) applied to a value that
must be a `str`. -/
def asStr (v : PyVal) (opErr : String) : Except PyError String :=
  match v with
  | .vStr s => .ok s
  | _ => .error (.typeError opErr)

/-- `v == s` where `s` is a string literal: equality between values of
different Python types is `False`, never an error. -/
def pyEqStr (v : PyVal) (s : String) : Bool :=
  match v with
  | .vStr t => t == s
  | _ => false

/-- `v * f` followed by use as a comparison operand (for
`... > summary.get(...) * 1.2`): numbers multiply (NaN propagates),
anything else raises `TypeError`. -/
def pyValMulToNum (v : PyVal) (f : ℚ) : Except PyError (Option ℚ) :=
  match v with
  | .vNum (some x) => .ok (some (x * f))
  | .vNum none => .ok none
  | _ => .error (.typeError "unsupported operand type(s) for *")

/-- `a > b` where `a` is a dict value and `b` a number: numeric comparison
(`False` on NaN), `TypeError` otherwise. -/
def pyValGtNum (a : PyVal) (b : Option ℚ) : Except PyError Bool :=
  match a with
  | .vNum x => .ok (nanGtB x b)
  | _ => .error (.typeError "\x27>\x27 not supported between instances")

/-- `info[k]` where `info` should be the static-field dict.  A present key
with a null cell yields the null (pandas `NaN`), an absent key raises
`KeyError`, a non-dict raises `TypeError`. -/
def infoSubscript (v : PyVal) (k : String) : Except PyError (Option String) :=
  match v with
  | .vStrMap d =>
    match d.lookup k with
    | some s => .ok s
    | none => .error (.keyError k)
  | _ => .error (.typeError "object is not subscriptable")

/-- `x in [...]` where `x` may be a null static cell: `None`/`NaN` is
simply not a member, no error. -/
def optStrMem (v : Option String) (l : List String) : Bool :=
  match v with
  | some s => l.contains s
  | none => false

/-- Interpolation of a possibly-null static cell into an f-string
(pandas nulls print as `nan`). -/
def optStrRepr (v : Option String) : String :=
  match v with
  | some s => s
  | none => "nan"

/-- `f"{v:.1f}"` on a dict value: numbers format (NaN prints `nan`),
anything else raises. -/
def pyFmt1Val (v : PyVal) : Except PyError String :=
  match v with
  | .vNum (some q) => .ok (fmt1 q)
  | .vNum none => .ok "nan"
  | _ => .error (.valueError "Unknown format code \x27f\x27")

/-- `create_persona` from `persona_generator.py`, statement for statement
in source order (`merchant_row` is accepted and, as in the source,
unused).  All draws from the ambient `random` module are supplied by `r`. -/
def create_persona (merchant_row : ProfileRow) (analysis_summary : List (String × PyVal))
    (r : RandChoices) : Except PyError Persona := do
  let info ← dictGet analysis_summary "static_info"
  let dagV ← dictGet analysis_summary "dominant_ag_group"
  let pctV ← dictGet analysis_summary "primary_cust_type"
  let dag ← asStr dagV "argument of type \x27NoneType\x27 is not iterable"
  let gender := if strContains dag "여성" then "여성" else "남성"
  let age_group := pyReplace (pyReplace dag "남성 " "") "여성 " ""
  let age_code := pySplitHead age_group "대"
  let name ← pyChoice (if gender = "여성" then FEMALE_NAMES else MALE_NAMES) r.nameIdx
  let avg_price := dictGetD analysis_summary "RC_M1_AV_NP_AT" (.vNum (some 0))
  let bzn120 ← pyValMulToNum (dictGetD analysis_summary "RC_M1_BZN_AV_NP_AT" (.vNum (some 0))) (12/10)
  let is_premium ← pyValGtNum avg_price bzn120
  let persona_key ←
    if pyEqStr pctV "직장" then
      pure (if (["20", "30"] : List String).contains age_code || !is_premium then
          "직장인_2030_가성비"
        else if (["40", "50"] : List String).contains age_code && is_premium then
          "직장인_4050_프리미엄"
        else "직장인_2030_가성비")
    else if pyEqStr pctV "거주" then do
      let bzn ← infoSubscript info "HPSN_MCT_BZN_CD_NM"
      if optStrMem bzn ["주택가"] then
        if (["40", "50"] : List String).contains age_code && gender = "여성" then
          pure "거주자_가족_패밀리"
        else if (["20", "30"] : List String).contains age_code then do
          let newGt ← pyValGtNum
            (dictGetD analysis_summary "MCT_UE_CLN_NEW_RAT" (.vNum (some 0))) (some (6/10))
          if newGt then pure "거주자_1인가구_혼밥족" else pure "거주자_가족_패밀리"
        else pure "거주자_가족_패밀리"
      else pure ""
    else if pyEqStr pctV "유동인구" then do
      let bzn ← infoSubscript info "HPSN_MCT_BZN_CD_NM"
      if optStrMem bzn ["관광특구", "명소", "복합단지"] then pure "유동인구_관광_탐색형"
      else if optStrMem bzn ["역세권"] then pure "유동인구_대중교통_환승객"
      else pure "유동인구_관광_탐색형"
    else pure ""
  let template := (PERSONA_TEMPLATES.lookup persona_key).getD tmplOffice2030
  let job ← pyChoice template.roles r.roleIdx
  let painSample ← pySample2 template.pain_points r.painIdx1 r.painIdx2
  let retS ← asStr (dictGetD analysis_summary "retention_analysis_text" (.vStr ""))
    "argument of type \x27float\x27 is not iterable"
  let pain_points :=
    if strContains retS "재방문 고객 비중이 낮아" then painSample ++ [extraPainPoint]
    else painSample
  let bznS ← infoSubscript info "HPSN_MCT_BZN_CD_NM"
  let zcdS ← infoSubscript info "HPSN_MCT_ZCD_NM"
  let dagRatioV ← dictGet analysis_summary "dominant_ag_ratio"
  let dagRatioS ← pyFmt1Val dagRatioV
  let description :=
    "**" ++ name ++ "**님은 **" ++ age_group ++ " " ++ gender ++ "**으로, 직업은 **" ++
      job ++ "**입니다. 주로 **\x27" ++ optStrRepr bznS ++ " (" ++ optStrRepr zcdS ++
      ")\x27** 상권에서 활동하며, 가게의 전체 고객 중 **" ++ dagRatioS ++
      "%**를 차지하는 핵심 고객 그룹을 대표합니다."
  let goals ← pySample2 template.goals r.goalIdx1 r.goalIdx2
  pure { name := name ++ " (" ++ job ++ " / " ++ age_group ++ " " ++ gender ++ ")"
         description := description
         goals := goals
         pain_points := pain_points
         channels := template.channels }

/-! ## Theorems -/

/-- C1: `classify_merchant_mbti` evaluates its rules as an ordered priority
list where the first matching predicate wins: every profile whose
category-rank percentile is 20 and whose district-rank percentile is 25
(both `< 30`) is classified as the top-tier archetype "상권의 지배자",
regardless of all other field values — even when later rules' predicates
are also true. -/
theorem classify_first_match_wins (row : ProfileRow)
    (h1 : row.numeric "M12_SME_RY_SAA_PCE_RT" = some 20)
    (h2 : row.numeric "M12_SME_BZN_SAA_PCE_RT" = some 25) :
    classify_merchant_mbti row =
      .ok { name := "상권의 지배자"
            description := "맛, 위치, 고객 관리 모든 면에서 압도적인 성과를 보이는 동네 1등 가게" } := by
  simp only [classify_merchant_mbti]
  rw [h1, h2]
  rfl

/-- A profile whose fields also satisfy rule 3's predicate
(`delivery_rate > 50`) and rule 5's predicate ('하위' in the average-spend
bucket, '상위' in the customer-count bucket), besides rule 1's. -/
def rowRulesOverlap : ProfileRow :=
  { mct := "W1"
    static := fun _ => none
    numeric := fun c =>
      if c = "M12_SME_RY_SAA_PCE_RT" then some 20
      else if c = "M12_SME_BZN_SAA_PCE_RT" then some 25
      else if c = "DLV_SAA_RAT" then some 60
      else none
    quartile := fun c =>
      if c = "RC_M1_AV_NP_AT" then some "하위 50-75%"
      else if c = "RC_M1_UE_CUS_CN" then some "상위 10%"
      else none }

theorem classify_first_match_wins_witness :
    classify_merchant_mbti rowRulesOverlap =
      .ok { name := "상권의 지배자"
            description := "맛, 위치, 고객 관리 모든 면에서 압도적인 성과를 보이는 동네 1등 가게" } :=
  classify_first_match_wins rowRulesOverlap rfl rfl

/-- C2: in `analyze_merchant`, when both retention ratios are present, a
repeat-rate of exactly 30.0 selects the "low retention" diagnostic branch
(the comparison is the inclusive `<=`; which of the two low sentences is
produced depends only on whether the new-customer rate exceeds 50), while
a repeat-rate of 30.01 selects the "good retention" sentence. -/
theorem retention_threshold_boundary (row row2 : ProfileRow) (n n2 : ℚ)
    (h1 : row.numeric "MCT_UE_CLN_REU_RAT" = some 30)
    (h2 : row.numeric "MCT_UE_CLN_NEW_RAT" = some n)
    (h3 : row2.numeric "MCT_UE_CLN_REU_RAT" = some (3001/100))
    (h4 : row2.numeric "MCT_UE_CLN_NEW_RAT" = some n2) :
    retentionAnalysisText row =
      (if n > 50 then retentionLowHighNew 30 n else retentionLowLowNew 30 n)
    ∧ retentionAnalysisText row2 = retentionGoodText (3001/100) n2 := by
  constructor
  · simp only [retentionAnalysisText]
    rw [h1, h2]
    norm_num
  · simp only [retentionAnalysisText]
    rw [h3, h4]
    norm_num

def rowRepeat30 : ProfileRow :=
  { mct := "W2"
    static := fun _ => none
    quartile := fun _ => none
    numeric := fun c =>
      if c = "MCT_UE_CLN_REU_RAT" then some 30
      else if c = "MCT_UE_CLN_NEW_RAT" then some 60 else none }

def rowRepeat3001 : ProfileRow :=
  { mct := "W3"
    static := fun _ => none
    quartile := fun _ => none
    numeric := fun c =>
      if c = "MCT_UE_CLN_REU_RAT" then some (3001/100)
      else if c = "MCT_UE_CLN_NEW_RAT" then some 60 else none }

theorem retention_threshold_boundary_witness :
    retentionAnalysisText rowRepeat30 =
      (if (60 : ℚ) > 50 then retentionLowHighNew 30 60 else retentionLowLowNew 30 60)
    ∧ retentionAnalysisText rowRepeat3001 = retentionGoodText (3001/100) 60 :=
  retention_threshold_boundary rowRepeat30 rowRepeat3001 60 60 rfl rfl rfl rfl

/-- Filtering a group does not care whether the sentinel substitution ran
first: `replaceSVRow` leaves the merchant id untouched. -/
theorem rowsOf_map_replaceSVRow (rows : List RawRow) (m : String) :
    rowsOf (rows.map replaceSVRow) m = (rowsOf rows m).map replaceSVRow := by
  unfold rowsOf
  induction rows with
  | nil => rfl
  | cons r t ih =>
    simp only [List.map_cons, List.filter_cons]
    have hm : (replaceSVRow r).mct = r.mct := rfl
    rw [hm]
    by_cases h : r.mct = m <;> simp [h, ih]

/-- The mean aggregate of one column for one merchant is the `seriesMean`
of that merchant's cells after sentinel replacement, in row order. -/
theorem aggMean_eq_seriesMean (rows : List RawRow) (m c : String) :
    aggMean rows m c =
      seriesMean ((rowsOf rows m).map (fun r => replaceSV (r.numeric c))) := by
  unfold aggMean
  rw [rowsOf_map_replaceSVRow, List.map_map]
  rfl

/-- Spec-side arithmetic mean: the sum of the listed values divided by how
many there are, undefined on an empty list. -/
def arithMeanSpec (vs : List ℚ) : Option ℚ :=
  if vs = [] then none else some (vs.sum / (vs.length : ℚ))

theorem seriesMean_eq_arithMeanSpec (vs : List (Option ℚ)) :
    seriesMean vs = arithMeanSpec (vs.filterMap id) := by
  unfold seriesMean arithMeanSpec
  by_cases h : vs.filterMap id = [] <;> simp [h]

/-- Dropping the nulls of the sentinel-substituted cells is the same as
dropping the nulls first and then discarding the values equal to the
sentinel. -/
theorem filterMap_replaceSV (l : List RawRow) (c : String) :
    (l.map (fun r => replaceSV (r.numeric c))).filterMap id =
      (l.filterMap (fun r => r.numeric c)).filter (fun v => v ≠ SV_VALUE) := by
  induction l with
  | nil => rfl
  | cons r t ih =>
    rw [List.map_cons]
    cases hv : r.numeric c with
    | none =>
      rw [List.filterMap_cons_none (show id (replaceSV none) = none from rfl),
        @List.filterMap_cons_none _ _ (fun r => r.numeric c) r t hv]
      exact ih
    | some x =>
      by_cases hx : x = SV_VALUE
      · subst hx
        rw [List.filterMap_cons_none (show id (replaceSV (some SV_VALUE)) = none by
            simp [replaceSV]),
          @List.filterMap_cons_some _ _ (fun r => r.numeric c) r t _ hv,
          List.filter_cons_of_neg (by simp)]
        exact ih
      · rw [List.filterMap_cons_some (show id (replaceSV (some x)) = some x by
            simp [replaceSV, hx]),
          @List.filterMap_cons_some _ _ (fun r => r.numeric c) r t _ hv,
          List.filter_cons_of_pos (by simp [hx]), ih]

/-- The three monthly rows of the end-to-end scenario: merchant `"M1"`,
repeat-rate values 20.0, 40.0 and missing, new-customer rate 60.0. -/
def scenarioRow (ym : String) (rep : Option ℚ) : RawRow :=
  { mct := "M1"
    taYm := ym
    static := fun _ => none
    quartile := fun _ => none
    numeric := fun c =>
      if c = "MCT_UE_CLN_REU_RAT" then rep
      else if c = "MCT_UE_CLN_NEW_RAT" then some 60 else none }

def scenarioRows : List RawRow :=
  [scenarioRow "202401" (some 20), scenarioRow "202402" (some 40),
   scenarioRow "202403" none]

/-- C3: for every merchant-id group, the aggregated value of a continuous
ratio column is the arithmetic mean of the merchant's non-missing monthly
values, and a merchant with zero non-missing values gets `none`, not zero.
Concretely, repeat-rate values `[20.0, 40.0, missing]` aggregate to 30.0,
which (with the new-customer rate present) falls into the low-retention
analyzer branch. -/
theorem mean_aggregation_invariant (rows : List RawRow) (m c : String) :
    (((rowsOf rows m).map (fun r => replaceSV (r.numeric c))).filterMap id ≠ [] →
      (buildProfile rows m).numeric c =
        some ((((rowsOf rows m).map (fun r => replaceSV (r.numeric c))).filterMap id).sum /
          (((((rowsOf rows m).map (fun r => replaceSV (r.numeric c))).filterMap id).length : ℚ))))
    ∧ (((rowsOf rows m).map (fun r => replaceSV (r.numeric c))).filterMap id = [] →
      (buildProfile rows m).numeric c = none)
    ∧ (buildProfile scenarioRows "M1").numeric "MCT_UE_CLN_REU_RAT" = some 30
    ∧ retentionAnalysisText (buildProfile scenarioRows "M1") = retentionLowHighNew 30 60 := by
  have hb : (buildProfile rows m).numeric c =
      seriesMean ((rowsOf rows m).map (fun r => replaceSV (r.numeric c))) :=
    aggMean_eq_seriesMean rows m c
  have hREU : (buildProfile scenarioRows "M1").numeric "MCT_UE_CLN_REU_RAT" = some 30 := by
    show aggMean scenarioRows "M1" "MCT_UE_CLN_REU_RAT" = some 30
    simp [aggMean, scenarioRows, scenarioRow, rowsOf, replaceSVRow, replaceSV,
      seriesMean, SV_VALUE]
    norm_num [List.filterMap_cons, List.sum_cons]
  have hNEW : (buildProfile scenarioRows "M1").numeric "MCT_UE_CLN_NEW_RAT" = some 60 := by
    show aggMean scenarioRows "M1" "MCT_UE_CLN_NEW_RAT" = some 60
    simp [aggMean, scenarioRows, scenarioRow, rowsOf, replaceSVRow, replaceSV,
      seriesMean, SV_VALUE]
    norm_num [List.filterMap_cons, List.sum_cons]
  refine ⟨?_, ?_, hREU, ?_⟩
  · intro h
    rw [hb, seriesMean_eq_arithMeanSpec]
    unfold arithMeanSpec
    rw [if_neg h]
  · intro h
    rw [hb, seriesMean_eq_arithMeanSpec]
    unfold arithMeanSpec
    rw [if_pos h]
  · unfold retentionAnalysisText
    rw [hREU, hNEW]
    norm_num

theorem mean_aggregation_invariant_witness :
    (buildProfile scenarioRows "M1").numeric "MCT_UE_CLN_REU_RAT" =
      some ((((rowsOf scenarioRows "M1").map
          (fun r => replaceSV (r.numeric "MCT_UE_CLN_REU_RAT"))).filterMap id).sum /
        ((((rowsOf scenarioRows "M1").map
          (fun r => replaceSV (r.numeric "MCT_UE_CLN_REU_RAT"))).filterMap id).length : ℚ)) :=
  (mean_aggregation_invariant scenarioRows "M1" "MCT_UE_CLN_REU_RAT").1 (by
    have hv : ((rowsOf scenarioRows "M1").map
        (fun r => replaceSV (r.numeric "MCT_UE_CLN_REU_RAT"))).filterMap id = [20, 40] := by
      simp [scenarioRows, scenarioRow, rowsOf, replaceSV, SV_VALUE]
      norm_num [List.filterMap_cons]
    rw [hv]
    exact List.cons_ne_nil _ _)

/-- Two monthly rows whose repeat-rate cells hold the raw sentinel value. -/
def sentinelRow (ym : String) : RawRow :=
  { mct := "S1"
    taYm := ym
    static := fun _ => none
    quartile := fun _ => none
    numeric := fun c =>
      if c = "MCT_UE_CLN_REU_RAT" then some SV_VALUE
      else if c = "MCT_UE_CLN_NEW_RAT" then some 40 else none }

def sentinelRows : List RawRow := [sentinelRow "202401", sentinelRow "202402"]

/-- C9: the sentinel `-999999.9` is replaced by missing in every column
before aggregation, so a raw cell equal to the sentinel never contributes
to a mean aggregate as a numeric value: the aggregate equals the spec-side
arithmetic mean of the non-missing, non-sentinel values.  A merchant whose
repeat-rate cells are all sentinel aggregates to `none` and its retention
diagnostic degrades to the insufficient-data sentence rather than using
the sentinel as a number. -/
theorem sentinel_never_contributes (rows : List RawRow) (m c : String) :
    (buildProfile rows m).numeric c =
      arithMeanSpec
        (((rowsOf rows m).filterMap (fun r => r.numeric c)).filter (fun v => v ≠ SV_VALUE))
    ∧ (buildProfile sentinelRows "S1").numeric "MCT_UE_CLN_REU_RAT" = none
    ∧ retentionAnalysisText (buildProfile sentinelRows "S1") = retentionInsufficientText := by
  have hS : (buildProfile sentinelRows "S1").numeric "MCT_UE_CLN_REU_RAT" = none := by
    show aggMean sentinelRows "S1" "MCT_UE_CLN_REU_RAT" = none
    simp [aggMean, sentinelRows, sentinelRow, rowsOf, replaceSVRow, replaceSV,
      seriesMean, SV_VALUE]
  have hN : (buildProfile sentinelRows "S1").numeric "MCT_UE_CLN_NEW_RAT" = some 40 := by
    show aggMean sentinelRows "S1" "MCT_UE_CLN_NEW_RAT" = some 40
    simp [aggMean, sentinelRows, sentinelRow, rowsOf, replaceSVRow, replaceSV,
      seriesMean, SV_VALUE]
    norm_num [List.filterMap_cons, List.sum_cons]
  refine ⟨?_, hS, ?_⟩
  · calc (buildProfile rows m).numeric c
        = seriesMean ((rowsOf rows m).map (fun r => replaceSV (r.numeric c))) :=
          aggMean_eq_seriesMean rows m c
      _ = arithMeanSpec (((rowsOf rows m).map (fun r => replaceSV (r.numeric c))).filterMap id) :=
          seriesMean_eq_arithMeanSpec _
      _ = arithMeanSpec (((rowsOf rows m).filterMap (fun r => r.numeric c)).filter
            (fun v => v ≠ SV_VALUE)) := by
          rw [filterMap_replaceSV]
  · unfold retentionAnalysisText
    rw [hS, hN]

/-- Membership in a `Counter`'s key list is membership in the counted
sequence. -/
theorem mem_counterKeys (xs : List String) (a : String) :
    a ∈ counterKeys xs ↔ a ∈ xs := by
  induction xs with
  | nil => simp [counterKeys]
  | cons x t ih =>
    simp only [counterKeys, List.mem_cons]
    constructor
    · rintro (rfl | h)
      · exact .inl rfl
      · exact .inr ((ih).mp (List.mem_of_mem_filter h))
    · rintro (rfl | h)
      · exact .inl rfl
      · by_cases hx : a = x
        · exact .inl hx
        · refine .inr ?_
          rw [List.mem_filter]
          exact ⟨(ih).mpr h, by simp [hx]⟩

/-- Removing the occurrences of an element that fails the predicate does
not change `find?`. -/
theorem find?_filter_ne (l : List String) (x : String) (p : String → Bool)
    (hpx : p x = false) :
    (l.filter (fun y => y ≠ x)).find? p = l.find? p := by
  induction l with
  | nil => rfl
  | cons a t ih =>
    by_cases ha : a = x
    · subst ha
      rw [List.filter_cons_of_neg (by simp), ih, List.find?_cons]
      simp [hpx]
    · rw [List.filter_cons_of_pos (by simp [ha]), List.find?_cons, List.find?_cons]
      cases hpa : p a
      · exact ih
      · rfl

/-- `find?` over a `Counter`'s key list agrees with `find?` over the
counted sequence itself: deduplication keeps first occurrences in order,
and a predicate (that depends only on the element) fails on a dropped
duplicate exactly when it fails on its kept first occurrence. -/
theorem find?_counterKeys (xs : List String) (p : String → Bool) :
    (counterKeys xs).find? p = xs.find? p := by
  induction xs with
  | nil => rfl
  | cons x t ih =>
    simp only [counterKeys]
    rw [List.find?_cons, List.find?_cons]
    cases hpx : p x with
    | true => rfl
    | false => rw [find?_filter_ne _ _ _ hpx, ih]

/-- `all` over a `Counter`'s key list agrees with `all` over the counted
sequence. -/
theorem all_counterKeys (xs : List String) (g : String → Bool) :
    (counterKeys xs).all g = xs.all g := by
  cases hb : xs.all g
  · obtain ⟨a, ha, hga⟩ := List.all_eq_false.mp hb
    exact List.all_eq_false.mpr ⟨a, (mem_counterKeys xs a).mpr ha, hga⟩
  · rw [List.all_eq_true] at hb
    exact List.all_eq_true.mpr (fun a ha => hb a ((mem_counterKeys xs a).mp ha))

/-- `mostCommon1` over counted keys returns an entry of maximal count, and
every entry listed before it has a strictly smaller count (stable
`nlargest`: the earliest maximal entry wins). -/
theorem mostCommon1_spec (f : String → Nat) :
    ∀ ks : List String, ks ≠ [] →
      ∃ x l1 l2, mostCommon1 (ks.map (fun k => (k, f k))) = some (x, f x) ∧
        ks = l1 ++ x :: l2 ∧ (∀ j ∈ l1, f j < f x) ∧ (∀ j ∈ l2, f j ≤ f x) := by
  intro ks
  induction ks with
  | nil => intro h; exact absurd rfl h
  | cons k t ih =>
    intro _
    by_cases ht : t = []
    · subst ht
      exact ⟨k, [], [], rfl, rfl, by simp, by simp⟩
    · obtain ⟨x, l1, l2, hmc, hdec, hl1, hl2⟩ := ih ht
      simp only [List.map_cons, mostCommon1, hmc]
      by_cases hgt : f x > f k
      · refine ⟨x, k :: l1, l2, by simp [hgt], ?_, ?_, hl2⟩
        · rw [hdec]; rfl
        · intro j hj
          rcases List.mem_cons.mp hj with rfl | hj'
          · exact hgt
          · exact hl1 j hj'
      · refine ⟨k, [], t, by simp [hgt], rfl, by simp, ?_⟩
        intro j hj
        have hle : f x ≤ f k := Nat.le_of_not_lt hgt
        rw [hdec] at hj
        rcases List.mem_append.mp hj with h1 | h2
        · exact Nat.le_trans (Nat.le_of_lt (hl1 j h1)) hle
        · rcases List.mem_cons.mp h2 with rfl | h3
          · exact hle
          · exact Nat.le_trans (hl2 j h3) hle

/-- In a list split as `l1 ++ x :: l2` with everything in `l1` strictly
below `x` and everything in `l2` at most `x`, the first element whose
value dominates the whole list is `x`. -/
theorem find?_first_max (f : String → Nat) (x : String) (l1 l2 : List String)
    (hl1 : ∀ j ∈ l1, f j < f x) (hl2 : ∀ j ∈ l2, f j ≤ f x) :
    (l1 ++ x :: l2).find? (fun y => (l1 ++ x :: l2).all (fun j => f j ≤ f y)) = some x := by
  have hx : x ∈ l1 ++ x :: l2 := List.mem_append_right _ (List.mem_cons_self x l2)
  have h1 : l1.all (fun j => f j ≤ f x) = true :=
    List.all_eq_true.mpr (fun j hj => decide_eq_true (Nat.le_of_lt (hl1 j hj)))
  have h2 : l2.all (fun j => f j ≤ f x) = true :=
    List.all_eq_true.mpr (fun j hj => decide_eq_true (hl2 j hj))
  rw [List.find?_append]
  have hnone : l1.find? (fun y => (l1 ++ x :: l2).all (fun j => f j ≤ f y)) = none := by
    rw [List.find?_eq_none]
    intro j hj hp
    have hxj : f x ≤ f j :=
      of_decide_eq_true (List.all_eq_true.mp hp x hx)
    exact Nat.lt_irrefl _ (Nat.lt_of_lt_of_le (hl1 j hj) hxj)
  rw [hnone]
  simp [List.find?_cons, h1, h2]

/-- `get_mode_or_first` returns precisely the first label (in sequence
order) whose multiplicity is maximal, or `none` for an all-null series. -/
theorem get_mode_or_first_eq_firstMax (vs : List (Option String)) :
    get_mode_or_first vs =
      (vs.filterMap id).find? (fun x =>
        (vs.filterMap id).all (fun j =>
          (vs.filterMap id).count j ≤ (vs.filterMap id).count x)) := by
  by_cases hl : vs.filterMap id = []
  · simp [get_mode_or_first, counter, counterKeys, hl]
  · have hkeys : counterKeys (vs.filterMap id) ≠ [] := by
      rcases hne : vs.filterMap id with _ | ⟨a, t⟩
      · exact absurd hne hl
      · simp [counterKeys]
    obtain ⟨x, l1, l2, hmc, hdec, hl1, hl2⟩ :=
      mostCommon1_spec (fun k => (vs.filterMap id).count k) (counterKeys (vs.filterMap id)) hkeys
    have hcounts : counter (vs.filterMap id) =
        (counterKeys (vs.filterMap id)).map (fun k => (k, (vs.filterMap id).count k)) := rfl
    have hne : (counter (vs.filterMap id)).isEmpty = false := by
      rw [hcounts, hdec]
      simp
    have hLHS : get_mode_or_first vs = some x := by
      simp only [get_mode_or_first]
      rw [hne]
      simp only [Bool.false_eq_true, if_false]
      rw [hcounts, hmc]
      rfl
    have hpe : (fun y => (counterKeys (vs.filterMap id)).all (fun j =>
          (vs.filterMap id).count j ≤ (vs.filterMap id).count y))
        = (fun y => (vs.filterMap id).all (fun j =>
          (vs.filterMap id).count j ≤ (vs.filterMap id).count y)) :=
      funext (fun y => all_counterKeys _ _)
    have hRHS : (vs.filterMap id).find? (fun y => (vs.filterMap id).all (fun j =>
        (vs.filterMap id).count j ≤ (vs.filterMap id).count y)) = some x := by
      rw [← find?_counterKeys (vs.filterMap id), ← hpe, hdec]
      exact find?_first_max _ x l1 l2 hl1 hl2
    rw [hLHS, hRHS]

/-- Mode aggregation ignores the sentinel substitution (which touches only
numeric cells). -/
theorem aggMode_eq (rows : List RawRow) (m c : String) :
    aggMode rows m c = get_mode_or_first ((rowsOf rows m).map (fun r => r.quartile c)) := by
  unfold aggMode
  rw [rowsOf_map_replaceSVRow, List.map_map]
  rfl

/-- Four monthly rows for merchant `"T1"` whose `RC_M1_SAA` buckets are
two labels with equal counts; "10-25%" appears first in row order. -/
def tieRow (ym lab : String) : RawRow :=
  { mct := "T1"
    taYm := ym
    static := fun _ => none
    numeric := fun _ => none
    quartile := fun c => if c = "RC_M1_SAA" then some lab else none }

def tieRows : List RawRow :=
  [tieRow "202401" "10-25%", tieRow "202402" "10%이하",
   tieRow "202403" "10%이하", tieRow "202404" "10-25%"]

/-- C4: for every merchant-id group, the aggregated quartile-bucket field
equals the first label, in row order, whose count among the merchant's
non-missing monthly labels is maximal — i.e. the most frequent label, with
equal counts broken in favour of the label encountered first (and `none`
when every monthly label is missing).  Concretely, labels
`["10-25%", "10%이하", "10%이하", "10-25%"]` (two of each) aggregate to
`"10-25%"`, the first-seen label. -/
theorem mode_aggregation_tiebreak (rows : List RawRow) (m c : String) :
    (buildProfile rows m).quartile c =
      (((rowsOf rows m).map (fun r => r.quartile c)).filterMap id).find? (fun x =>
        (((rowsOf rows m).map (fun r => r.quartile c)).filterMap id).all (fun j =>
          (((rowsOf rows m).map (fun r => r.quartile c)).filterMap id).count j ≤
            (((rowsOf rows m).map (fun r => r.quartile c)).filterMap id).count x))
    ∧ (buildProfile tieRows "T1").quartile "RC_M1_SAA" = some "10-25%" := by
  constructor
  · show aggMode rows m c = _
    rw [aggMode_eq, get_mode_or_first_eq_firstMax]
  · rfl

/-- A profile whose customer-analysis inputs (age/gender and customer-type
ratios) are all missing while the retention and competition inputs are
present. -/
def rowNoCust : ProfileRow :=
  { mct := "C7"
    static := fun _ => none
    quartile := fun _ => none
    numeric := fun c =>
      if c ∈ AGE_GENDER_COLS then none
      else if c ∈ CUST_TYPE_COLS then none
      else some 40 }

/-- A profile with every numeric and bucket field missing. -/
def rowAllMissing : ProfileRow :=
  { mct := "E0"
    static := fun _ => none
    numeric := fun _ => none
    quartile := fun _ => none }

theorem fmt1_zero : fmt1 0 = "0.0" := by
  unfold fmt1
  norm_num
  rfl

/-- C7 counterexample: for a profile whose customer-analysis inputs are all
missing, the customer-concentration diagnostic is NOT degraded to a fixed
"insufficient data" sentence — `analyze_merchant` still builds the regular
sentence, with `'정보 없음'` placeholders and a `0.0%` share, and that text
contains no "불충분" (insufficient) marker and differs from both fixed
insufficient-data sentences in the code. -/
theorem cust_diag_missing_counterexample :
    custAnalysisText rowNoCust =
      "AI 분석 결과, 우리 가게는 **정보 없음 정보 없음**가 전체 고객의 **0.0%**를 차지하여 고객층이 비교적 다양하게 분포되어 있습니다."
    ∧ strContains (custAnalysisText rowNoCust) "불충분" = false
    ∧ custAnalysisText rowNoCust ≠ retentionInsufficientText
    ∧ custAnalysisText rowNoCust ≠ compInsufficientText := by
  have htext : custAnalysisText rowNoCust =
      "AI 분석 결과, 우리 가게는 **" ++ "정보 없음" ++ " " ++ "정보 없음" ++
        "**가 전체 고객의 **" ++ fmt1 0 ++ "%**를 차지하여 고객층이 " ++
        "비교적 다양하게 분포되어 있습니다" ++ "." := rfl
  have htext2 : custAnalysisText rowNoCust =
      "AI 분석 결과, 우리 가게는 **정보 없음 정보 없음**가 전체 고객의 **0.0%**를 차지하여 고객층이 비교적 다양하게 분포되어 있습니다." := by
    rw [htext, fmt1_zero]
    rfl
  refine ⟨htext2, ?_, ?_, ?_⟩
  · rw [htext2]
    rfl
  · rw [htext2]
    decide
  · rw [htext2]
    decide

/-- An all-missing column selection drops to the empty series. -/
theorem seriesDropna_nil (row : ProfileRow) (cols : List String)
    (h : ∀ c ∈ cols, row.numeric c = none) : seriesDropna row cols = [] := by
  induction cols with
  | nil => rfl
  | cons c t ih =>
    simp only [seriesDropna]
    rw [List.filterMap_cons_none (by rw [h c (List.mem_cons_self c t)]; rfl)]
    exact ih (fun c hc => h c (List.mem_cons_of_mem _ hc))

/-- Rows agreeing on the selected columns drop to the same series. -/
theorem seriesDropna_congr (r1 r2 : ProfileRow) (cols : List String)
    (h : ∀ c ∈ cols, r1.numeric c = r2.numeric c) :
    seriesDropna r1 cols = seriesDropna r2 cols := by
  induction cols with
  | nil => rfl
  | cons c t ih =>
    simp only [seriesDropna, List.filterMap_cons]
    rw [h c (List.mem_cons_self c t)]
    rw [show ((t.filterMap fun c => (r1.numeric c).map (fun v => (c, v)))) =
        (t.filterMap fun c => (r2.numeric c).map (fun v => (c, v))) from
      ih (fun c hc => h c (List.mem_cons_of_mem _ hc))]

/-- C7 as amended: no missing input makes `analyze_merchant` raise, and the
three diagnostics are independent (each depends only on its own columns);
missing retention or competition inputs degrade those two diagnostics to
their fixed insufficient-data sentences, while missing customer-analysis
inputs degrade that diagnostic to the regular sentence with `'정보 없음'`
placeholders and a 0.0% share (not to an insufficient-data sentence). -/
theorem analyze_missing_degrades_amended :
    (∀ row : ProfileRow,
      row.numeric "MCT_UE_CLN_REU_RAT" = none ∨ row.numeric "MCT_UE_CLN_NEW_RAT" = none →
      retentionAnalysisText row = retentionInsufficientText)
    ∧ (∀ row : ProfileRow,
      row.numeric "M12_SME_RY_SAA_PCE_RT" = none ∨ row.numeric "M12_SME_BZN_SAA_PCE_RT" = none →
      compAnalysisText row = compInsufficientText)
    ∧ (∀ row : ProfileRow,
      (∀ c ∈ AGE_GENDER_COLS, row.numeric c = none) →
      (∀ c ∈ CUST_TYPE_COLS, row.numeric c = none) →
      custAnalysisText row =
        "AI 분석 결과, 우리 가게는 **" ++ "정보 없음" ++ " " ++ "정보 없음" ++
          "**가 전체 고객의 **" ++ fmt1 0 ++ "%**를 차지하여 고객층이 " ++
          "비교적 다양하게 분포되어 있습니다" ++ ".")
    ∧ (∀ r1 r2 : ProfileRow,
      (∀ c ∈ RETENTION_COLS, r1.numeric c = r2.numeric c) →
      retentionAnalysisText r1 = retentionAnalysisText r2)
    ∧ (∀ r1 r2 : ProfileRow,
      (∀ c ∈ COMPETITION_COLS, r1.numeric c = r2.numeric c) →
      compAnalysisText r1 = compAnalysisText r2)
    ∧ (∀ r1 r2 : ProfileRow,
      (∀ c ∈ AGE_GENDER_COLS ++ CUST_TYPE_COLS, r1.numeric c = r2.numeric c) →
      custAnalysisText r1 = custAnalysisText r2) := by
  refine ⟨?_, ?_, ?_, ?_, ?_, ?_⟩
  · intro row h
    unfold retentionAnalysisText
    rcases h with h | h
    · rw [h]
    · rw [h]
      cases row.numeric "MCT_UE_CLN_REU_RAT" <;> rfl
  · intro row h
    unfold compAnalysisText
    rcases h with h | h
    · rw [h]
    · rw [h]
      cases row.numeric "M12_SME_RY_SAA_PCE_RT" <;> rfl
  · intro row hA hC
    unfold custAnalysisText
    rw [seriesDropna_nil row AGE_GENDER_COLS hA, seriesDropna_nil row CUST_TYPE_COLS hC]
    rfl
  · intro r1 r2 h
    unfold retentionAnalysisText
    rw [h "MCT_UE_CLN_REU_RAT" (by decide), h "MCT_UE_CLN_NEW_RAT" (by decide)]
  · intro r1 r2 h
    unfold compAnalysisText
    rw [h "M12_SME_RY_SAA_PCE_RT" (by decide), h "M12_SME_BZN_SAA_PCE_RT" (by decide)]
  · intro r1 r2 h
    unfold custAnalysisText
    rw [seriesDropna_congr r1 r2 AGE_GENDER_COLS
        (fun c hc => h c (List.mem_append_left _ hc)),
      seriesDropna_congr r1 r2 CUST_TYPE_COLS
        (fun c hc => h c (List.mem_append_right _ hc))]

/-- A copy of `rowRepeat30` that differs on every non-retention field. -/
def rowRepeat30b : ProfileRow :=
  { rowRepeat30 with mct := "W2b", static := fun _ => some "x" }

theorem analyze_missing_degrades_amended_witness :
    retentionAnalysisText rowAllMissing = retentionInsufficientText
    ∧ compAnalysisText rowAllMissing = compInsufficientText
    ∧ retentionAnalysisText rowRepeat30 = retentionAnalysisText rowRepeat30b :=
  ⟨analyze_missing_degrades_amended.1 rowAllMissing (Or.inl rfl),
   analyze_missing_degrades_amended.2.1 rowAllMissing (Or.inl rfl),
   analyze_missing_degrades_amended.2.2.2.1 rowRepeat30 rowRepeat30b (fun _ _ => rfl)⟩

/-- A profile with every numeric field missing but every quartile bucket
present. -/
def rowBucketsPresent : ProfileRow :=
  { mct := "E1"
    static := fun _ => none
    numeric := fun _ => none
    quartile := fun _ => some "25-50%" }

/-- C8: evaluating the classifier on a profile whose quartile-bucket
aggregates are `None` (a merchant whose bucket columns were all missing)
raises `TypeError` when rule evaluation reaches the substring test
`'하위' in avg_spend_rank` — it does not degrade the input and return a
label.  Missing numeric inputs alone are indeed non-fatal: with all
numerics null but buckets present, the classifier returns the default
label. -/
theorem classify_missing_bucket_typeerror :
    classify_merchant_mbti rowAllMissing =
      .error (.typeError "argument of type \x27NoneType\x27 is not iterable")
    ∧ classify_merchant_mbti rowBucketsPresent =
      .ok { name := "위기의 소상공인"
            description := "전반적인 지표 개선이 시급한, 변화와 혁신이 필요한 가게" } :=
  ⟨rfl, rfl⟩

/-- `FIXED_DATA_PATH` from `data_processor.py`. -/
def FIXED_DATA_PATH : String := "./data/merged_data.csv"

/-- C6: on a byte stream that fails to decode as cp949, `load_fixed_data`
aborts — but with a `TypeError` raised by the one-argument
`UnicodeDecodeError(...)` constructor call inside the `except` handler,
not with a decode-failure error.  The absent-file and missing-column
failures abort as well; every failure path yields an error, so no profile
list is ever produced on a failed load. -/
theorem loader_decode_failure_typeerror :
    load_fixed_data FIXED_DATA_PATH .undecodable =
      .error (.typeError "function takes exactly 5 arguments (1 given)")
    ∧ (∃ m, load_fixed_data FIXED_DATA_PATH .absent = .error (.fileNotFoundError m))
    ∧ (∃ m, load_fixed_data FIXED_DATA_PATH (.decoded { cols := [], rows := [] }) =
        .error (.exception m)) :=
  ⟨rfl, ⟨_, rfl⟩, ⟨_, rfl⟩⟩

/-- C10: for every profile row, feeding the dict returned by
`analyze_merchant` straight into `create_persona` raises
`KeyError: 'dominant_ag_group'` — the analyzer's dict carries exactly the
three diagnostic texts, the static-field dict, the quartile-field dict and
the two chart helpers, while `create_persona` unconditionally reads
`'dominant_ag_group'`, `'primary_cust_type'` and `'dominant_ag_ratio'`,
none of which is present. -/
theorem create_persona_on_analyzer_keyerror (row prow : ProfileRow) (r : RandChoices) :
    create_persona prow (analyze_merchant row) r = .error (.keyError "dominant_ag_group")
    ∧ (analyze_merchant row).lookup "dominant_ag_group" = none
    ∧ (analyze_merchant row).lookup "primary_cust_type" = none
    ∧ (analyze_merchant row).lookup "dominant_ag_ratio" = none
    ∧ (analyze_merchant row).map (fun kv => kv.1) =
        ["cust_analysis_text", "retention_analysis_text", "comp_analysis_text",
         "static_info", "metric_info", "age_gender_cols", "age_gender_names"] :=
  ⟨rfl, rfl, rfl, rfl, rfl⟩

theorem fmt1_twenty : fmt1 20 = "20.0" := by
  unfold fmt1
  norm_num
  rfl

theorem fmt1_sixty : fmt1 60 = "60.0" := by
  unfold fmt1
  norm_num
  rfl

/-- The low-retention sentence the analyzer produces for a repeat rate of
20.0 and a new-customer rate of 60.0, with the rates interpolated. -/
def lowRetentionTextLit : String :=
  "신규 고객은 꾸준히 유입(60.0%)되고 있으나, **재방문 고객 비중이 20.0%로 낮아** 한번 방문한 고객을 단골로 만드는 데 어려움을 겪고 있습니다."

/-- A profile squarely in the low-retention branch (repeat 20.0 ≤ 30,
new 60.0 > 50). -/
def rowRep20New60 : ProfileRow :=
  { mct := "C5"
    static := fun _ => none
    quartile := fun _ => none
    numeric := fun c =>
      if c = "MCT_UE_CLN_REU_RAT" then some 20
      else if c = "MCT_UE_CLN_NEW_RAT" then some 60 else none }

/-- An analysis-summary dict carrying every key `create_persona` reads,
whose retention text is the analyzer's actual low-retention sentence. -/
def summaryLowRet : List (String × PyVal) :=
  [("static_info", .vStrMap [("HPSN_MCT_BZN_CD_NM", some "주택가"),
                             ("HPSN_MCT_ZCD_NM", some "한식")]),
   ("dominant_ag_group", .vStr "여성 30대"),
   ("primary_cust_type", .vStr "직장"),
   ("dominant_ag_ratio", .vNum (some 40)),
   ("retention_analysis_text", .vStr lowRetentionTextLit)]

def rand0 : RandChoices := ⟨0, 0, 0, 0, 0, 0⟩

/-- C5: `create_persona` appends its extra pain point only when the
literal '재방문 고객 비중이 낮아' occurs in the retention text, but the
analyzer's low-retention sentences interpolate the percentage between
'비중이' and '낮아', so the check never fires on analyzer output: for a
merchant in the low-retention branch the persona still carries exactly the
two pain points sampled from the selected template (2030-office), with no
third appended — contradicting "appends exactly one extra pain point if
the retention diagnostic matched the low-retention branch".  The sampled
goals and pain points are drawn from the selected template's own lists. -/
theorem persona_no_extra_pain_point :
    retentionAnalysisText rowRep20New60 = lowRetentionTextLit
    ∧ strContains lowRetentionTextLit "재방문 고객 비중이 낮아" = false
    ∧ (create_persona rowAllMissing summaryLowRet rand0).map (fun p => p.pain_points) =
        .ok ["매일 탕/찌개가 지겨워요.", "점심값이 너무 부담돼요."]
    ∧ (create_persona rowAllMissing summaryLowRet rand0).map (fun p => p.goals) =
        .ok ["점심시간에 밖에서 먹으며 잠시 스트레스를 풀고 싶어요.",
             "빠르고 가성비 좋은 점심 메뉴를 동료들과 찾고 있어요."]
    ∧ tmplOffice2030.pain_points.length = 3 := by
  refine ⟨?_, rfl, rfl, rfl, rfl⟩
  have h1 : retentionAnalysisText rowRep20New60 = retentionLowHighNew 20 60 := rfl
  rw [h1]
  unfold retentionLowHighNew
  rw [fmt1_twenty, fmt1_sixty]
  rfl
